import Mathlib

/-!
# Verification development for `app.js`

A shallow embedding of the Express application in `src/app.js`: the storage
helpers (`fetchQuestions`, `fetchAnswers`, `insertIntoDynamoDB`), the
notification helper (`publishToSns`) and the six data routes
(`GET /questions`, `GET /answers`, `POST /submitQuery`, `POST /submitQuestion`,
`POST /submitEmail`, `POST /submitAnswer`).

JavaScript values are an inductive type, objects are association lists read
by own-property lookup, `async` functions that may throw return `Except`, and
the two AWS backends are an explicit `World` (table contents and the log of
backend calls) driven by an `Outcomes` record that fixes, for one request,
the identifier `uuidv4()` returns and whether each backend call fails.

Not modelled: console output, HTTP headers, and the enumeration order of
integer-like property names.  A request body is the object the body parsers
leave in `req.body`; an array body has none of the fields the handlers read
and behaves as the empty object.
-/

namespace App

/-! ## JavaScript values -/

/-- The JavaScript values a parsed request body can hold (`bodyParser.json()` and
`bodyParser.urlencoded`), plus `undefined` for an absent property.  A number is
carried by its `Number::toString` rendering, the only thing the program ever
does with one. -/
inductive JSValue where
  | undefined : JSValue
  | null : JSValue
  | bool (b : Bool) : JSValue
  | num (rendering : String) : JSValue
  | str (s : String) : JSValue
  | arr (elems : List JSValue) : JSValue
  | obj (props : List (String × JSValue)) : JSValue

/-- A plain object: its own enumerable properties in insertion order. -/
abbrev JSObj := List (String × JSValue)

/-- Values thrown by the program's callees. -/
inductive JSError where
  | backend (msg : String) : JSError
  | typeError (msg : String) : JSError
  deriving DecidableEq, Repr

/-- Own property names of an object, in order. -/
def objKeys (o : JSObj) : List String := o.map Prod.fst

/-- Property read `o[k]` (or `o.k`): the own property's value, `undefined` when there is none. -/
def objGet : JSObj → String → JSValue
  | [], _ => JSValue.undefined
  | (k', v) :: rest, k => if k' = k then v else objGet rest k

/-- Property definition `o[k] = v` inside an object literal: an existing own
property keeps its place and takes the new value, a new one is appended. -/
def objSet : JSObj → String → JSValue → JSObj
  | [], k, v => [(k, v)]
  | (k', v') :: rest, k, v => if k' = k then (k', v) :: rest else (k', v') :: objSet rest k v

/-- Spread `...src` inside an object literal whose properties so far are `target`:
every own property name of `src`, in order, is read from `src` and defined on the target. -/
def objSpread (target : JSObj) (src : JSObj) : JSObj :=
  (objKeys src).foldl (fun acc k => objSet acc k (objGet src k)) target

/-- One element inside `Array.prototype.join`: `undefined` and `null` render as
the empty string, any other element as its `ToString` result `viaToString`. -/
def joinElem (x : JSValue) (viaToString : Except JSError String) : Except JSError String :=
  match x with
  | JSValue.undefined => Except.ok ""
  | JSValue.null => Except.ok ""
  | _ => viaToString

mutual
/-- ECMAScript `ToString` on a request value, as a template literal `${v}` applies it.
An array goes through `Array.prototype.join`; an object without an own
`toString` property goes through `Object.prototype.toString`; an object with
an own `toString` property (never callable in a parsed body) falls through
`OrdinaryToPrimitive` to `valueOf`, which yields no primitive, and a `TypeError` is thrown. -/
def jsToString : JSValue → Except JSError String
  | JSValue.undefined => Except.ok "undefined"
  | JSValue.null => Except.ok "null"
  | JSValue.bool true => Except.ok "true"
  | JSValue.bool false => Except.ok "false"
  | JSValue.num r => Except.ok r
  | JSValue.str s => Except.ok s
  | JSValue.arr xs => jsJoin xs
  | JSValue.obj props =>
      if "toString" ∈ props.map Prod.fst then
        Except.error (JSError.typeError "Cannot convert object to primitive value")
      else Except.ok "[object Object]"
termination_by structural v => v
/-- Method `Array.prototype.join` with the default separator `","`, elements
rendered left to right. -/
def jsJoin : List JSValue → Except JSError String
  | [] => Except.ok ""
  | [x] => joinElem x (jsToString x)
  | x :: y :: rest =>
      match joinElem x (jsToString x) with
      | Except.error e => Except.error e
      | Except.ok s =>
        match jsJoin (y :: rest) with
        | Except.error e => Except.error e
        | Except.ok t => Except.ok (s ++ "," ++ t)
termination_by structural xs => xs
end

/-! ## The two backends -/

/-- A call made to a backend client: `dynamoDb.put`, `dynamoDb.scan` or `sns.publish`. -/
inductive Call where
  | put (table : String) (item : JSObj) : Call
  | scan (table : String) : Call
  | publish (message : String) : Call

/-- State outside the process: for each table its key attribute (fixed when the
table was created) and its stored items, and the log of backend calls made so far. -/
structure World where
  keyAttr : String → String
  items : String → List JSObj
  calls : List Call

/-- What the environment decides for one request: the string `uuidv4()` returns
and, for each backend call, the error it rejects with (`none`: it resolves). -/
structure Outcomes where
  uuid : String
  putError : Option JSError
  scanError : Option JSError
  publishError : Option JSError

/-- Key attributes are scalars; two key values name the same item when they are
the same string or the same number. -/
def sameKey : JSValue → JSValue → Bool
  | JSValue.str a, JSValue.str b => decide (a = b)
  | JSValue.num a, JSValue.num b => decide (a = b)
  | _, _ => false

/-- Table contents after a successful `put`: the new item replaces the stored item
with the same key value, if there is one, and is added otherwise. -/
def storeItem (key : String) (stored : List JSObj) (item : JSObj) : List JSObj :=
  stored.filter (fun old => !sameKey (objGet old key) (objGet item key)) ++ [item]

/-- The world after one more backend call has been logged. -/
def World.logged (w : World) (c : Call) : World :=
  { w with calls := w.calls ++ [c] }

/-- The world after `item` has been stored in `table`. -/
def World.stored (w : World) (table : String) (item : JSObj) : World :=
  { w with
    items := fun t =>
      if t = table then storeItem (w.keyAttr table) (w.items table) item else w.items t }

/-- Effect of `dynamoDb.put({TableName, Item}).promise()`: the call is logged; on
rejection nothing is stored, on success the item is stored in the named table. -/
def dynamoPut (w : World) (o : Outcomes) (table : String) (item : JSObj) :
    Except JSError Unit × World :=
  match o.putError with
  | some e => (Except.error e, w.logged (Call.put table item))
  | none => (Except.ok (), (w.logged (Call.put table item)).stored table item)

/-- Effect of `dynamoDb.scan({TableName}).promise()`: the call is logged; on success
`data.Items` is the table's items. -/
def dynamoScan (w : World) (o : Outcomes) (table : String) :
    Except JSError (List JSObj) × World :=
  match o.scanError with
  | some e => (Except.error e, w.logged (Call.scan table))
  | none => (Except.ok (w.items table), w.logged (Call.scan table))

/-- Effect of `sns.publish({Message, TopicArn}).promise()`: the call is logged. -/
def snsPublish (w : World) (o : Outcomes) (message : String) : Except JSError Unit × World :=
  match o.publishError with
  | some e => (Except.error e, w.logged (Call.publish message))
  | none => (Except.ok (), w.logged (Call.publish message))

/-! ## Helpers of `app.js` -/

/-- Function `fetchQuestions` (app.js 41-53): `try { return (await scan).Items } catch { return [] }`. -/
def fetchQuestions (w : World) (o : Outcomes) : Except JSError (List JSObj) × World :=
  match dynamoScan w o "Questions" with
  | (Except.ok items, w1) => (Except.ok items, w1)
  | (Except.error _, w1) => (Except.ok [], w1)

/-- Function `fetchAnswers` (app.js 56-68). -/
def fetchAnswers (w : World) (o : Outcomes) : Except JSError (List JSObj) × World :=
  match dynamoScan w o "Answers" with
  | (Except.ok items, w1) => (Except.ok items, w1)
  | (Except.error _, w1) => (Except.ok [], w1)

/-- The object literal `{ [primaryKey]: uuidv4(), ...data }` (app.js 74-77). -/
def mergedItem (primaryKey : String) (uuid : String) (data : JSObj) : JSObj :=
  objSpread (objSet [] primaryKey (JSValue.str uuid)) data

/-- Function `insertIntoDynamoDB` (app.js 71-86): build the item, `put` it, rethrow a rejection. -/
def insertIntoDynamoDB (w : World) (o : Outcomes) (tableName primaryKey : String)
    (data : JSObj) : Except JSError Unit × World :=
  match dynamoPut w o tableName (mergedItem primaryKey o.uuid data) with
  | (Except.ok _, w1) => (Except.ok (), w1)
  | (Except.error err, w1) => (Except.error err, w1)

/-- Function `publishToSns` (app.js 89-101): `publish`, and a rejection is caught and only logged. -/
def publishToSns (w : World) (o : Outcomes) (message : String) : Except JSError Unit × World :=
  match snsPublish w o message with
  | (Except.ok _, w1) => (Except.ok (), w1)
  | (Except.error _, w1) => (Except.ok (), w1)

/-! ## Routes -/

/-- What a handler answers: `res.json(v)` (status 200 unless set), `res.redirect(url)`
(status 302), `res.status(n).send(text)`, or `res.sendFile(name)`. -/
inductive Response where
  | json (status : Nat) (value : List JSObj) : Response
  | redirect (status : Nat) (location : String) : Response
  | send (status : Nat) (text : String) : Response
  | file (name : String) : Response

/-- Handler of `GET /questions` (app.js 104-112). -/
def getQuestions (w : World) (o : Outcomes) : Response × World :=
  match fetchQuestions w o with
  | (Except.ok questions, w1) => (Response.json 200 questions, w1)
  | (Except.error _, w1) => (Response.send 500 "Error fetching questions.", w1)

/-- Handler of `GET /answers` (app.js 115-123). -/
def getAnswers (w : World) (o : Outcomes) : Response × World :=
  match fetchAnswers w o with
  | (Except.ok answers, w1) => (Response.json 200 answers, w1)
  | (Except.error _, w1) => (Response.send 500 "Error fetching answers.", w1)

/-- The template literal of app.js 135, its substitutions converted left to right. -/
def queryMessage (name query : JSValue) : Except JSError String :=
  match jsToString name with
  | Except.error e => Except.error e
  | Except.ok n =>
    match jsToString query with
    | Except.error e => Except.error e
    | Except.ok q => Except.ok ("New query submitted by " ++ n ++ ": " ++ q)

/-- A template literal with one substitution at its end (app.js 154, 174, 193). -/
def prefixedMessage (pre : String) (v : JSValue) : Except JSError String :=
  match jsToString v with
  | Except.error e => Except.error e
  | Except.ok s => Except.ok (pre ++ s)

/-- Handler of `POST /submitQuery` (app.js 126-142). -/
def submitQuery (w : World) (o : Outcomes) (body : JSObj) : Response × World :=
  let name := objGet body "name"
  let email := objGet body "email"
  let query := objGet body "query"
  match insertIntoDynamoDB w o "Queries" "queryid"
      [("name", name), ("email", email), ("query", query)] with
  | (Except.error _, w1) => (Response.send 500 "Error submitting query.", w1)
  | (Except.ok _, w1) =>
    match queryMessage name query with
    | Except.error _ => (Response.send 500 "Error submitting query.", w1)
    | Except.ok message =>
      match publishToSns w1 o message with
      | (Except.error _, w2) => (Response.send 500 "Error submitting query.", w2)
      | (Except.ok _, w2) => (Response.redirect 302 "/", w2)

/-- Handler of `POST /submitQuestion` (app.js 145-161). -/
def submitQuestion (w : World) (o : Outcomes) (body : JSObj) : Response × World :=
  let question := objGet body "question"
  match insertIntoDynamoDB w o "Questions" "questionid" [("question", question)] with
  | (Except.error _, w1) => (Response.send 500 "Error submitting question.", w1)
  | (Except.ok _, w1) =>
    match prefixedMessage "New question submitted: " question with
    | Except.error _ => (Response.send 500 "Error submitting question.", w1)
    | Except.ok message =>
      match publishToSns w1 o message with
      | (Except.error _, w2) => (Response.send 500 "Error submitting question.", w2)
      | (Except.ok _, w2) => (Response.redirect 302 "/nn.html", w2)

/-- Handler of `POST /submitEmail` (app.js 164-181). -/
def submitEmail (w : World) (o : Outcomes) (body : JSObj) : Response × World :=
  let email := objGet body "email"
  match insertIntoDynamoDB w o "Emails" "emailid" [("email", email)] with
  | (Except.error _, w1) => (Response.send 500 "Error submitting email.", w1)
  | (Except.ok _, w1) =>
    match prefixedMessage "New email submitted: " email with
    | Except.error _ => (Response.send 500 "Error submitting email.", w1)
    | Except.ok message =>
      match publishToSns w1 o message with
      | (Except.error _, w2) => (Response.send 500 "Error submitting email.", w2)
      | (Except.ok _, w2) => (Response.redirect 302 "/about", w2)

/-- Handler of `POST /submitAnswer` (app.js 184-200). -/
def submitAnswer (w : World) (o : Outcomes) (body : JSObj) : Response × World :=
  let answer := objGet body "answer"
  match insertIntoDynamoDB w o "Answers" "answerid" [("answer", answer)] with
  | (Except.error _, w1) => (Response.send 500 "Error submitting answer.", w1)
  | (Except.ok _, w1) =>
    match prefixedMessage "New answer submitted: " answer with
    | Except.error _ => (Response.send 500 "Error submitting answer.", w1)
    | Except.ok message =>
      match publishToSns w1 o message with
      | (Except.error _, w2) => (Response.send 500 "Error submitting answer.", w2)
      | (Except.ok _, w2) => (Response.redirect 302 "/", w2)

/-- The four submission routes. -/
inductive Submission where
  | submitQuery : Submission
  | submitQuestion : Submission
  | submitEmail : Submission
  | submitAnswer : Submission
  deriving DecidableEq, Repr

/-- The six page routes (app.js 203-230). -/
inductive Page where
  | anotherPage : Page
  | root : Page
  | nn : Page
  | about : Page
  | answersHtml : Page
  | contactHtml : Page
  deriving DecidableEq, Repr

/-- The file a page route sends. -/
def Page.fileName : Page → String
  | Page.anotherPage => "another_page.html"
  | Page.root => "index.html"
  | Page.nn => "nn.html"
  | Page.about => "hom.html"
  | Page.answersHtml => "answers.html"
  | Page.contactHtml => "contact.html"

/-- The routes registered on `app`. -/
inductive Route where
  | getQuestions : Route
  | getAnswers : Route
  | post (s : Submission) : Route
  | page (p : Page) : Route
  deriving DecidableEq, Repr

/-- Dispatch of a submission route to its handler. -/
def submit : Submission → World → Outcomes → JSObj → Response × World
  | Submission.submitQuery => submitQuery
  | Submission.submitQuestion => submitQuestion
  | Submission.submitEmail => submitEmail
  | Submission.submitAnswer => submitAnswer

/-- Dispatch of a request to the handler registered for its route. -/
def serve (r : Route) (w : World) (o : Outcomes) (body : JSObj) : Response × World :=
  match r with
  | Route.getQuestions => getQuestions w o
  | Route.getAnswers => getAnswers w o
  | Route.post s => submit s w o body
  | Route.page p => (Response.file p.fileName, w)

/-- Table named at the `insertIntoDynamoDB` call of each submission handler. -/
def Submission.table : Submission → String
  | Submission.submitQuery => "Queries"
  | Submission.submitQuestion => "Questions"
  | Submission.submitEmail => "Emails"
  | Submission.submitAnswer => "Answers"

/-- Primary-key name passed at the `insertIntoDynamoDB` call of each submission handler. -/
def Submission.primaryKey : Submission → String
  | Submission.submitQuery => "queryid"
  | Submission.submitQuestion => "questionid"
  | Submission.submitEmail => "emailid"
  | Submission.submitAnswer => "answerid"

/-- Record passed at the `insertIntoDynamoDB` call of each submission handler. -/
def Submission.record (body : JSObj) : Submission → JSObj
  | Submission.submitQuery =>
      [("name", objGet body "name"), ("email", objGet body "email"), ("query", objGet body "query")]
  | Submission.submitQuestion => [("question", objGet body "question")]
  | Submission.submitEmail => [("email", objGet body "email")]
  | Submission.submitAnswer => [("answer", objGet body "answer")]

/-- Notification message built by each submission handler. -/
def Submission.message (body : JSObj) : Submission → Except JSError String
  | Submission.submitQuery => queryMessage (objGet body "name") (objGet body "query")
  | Submission.submitQuestion => prefixedMessage "New question submitted: " (objGet body "question")
  | Submission.submitEmail => prefixedMessage "New email submitted: " (objGet body "email")
  | Submission.submitAnswer => prefixedMessage "New answer submitted: " (objGet body "answer")

/-- Redirect target of each submission handler. -/
def Submission.target : Submission → String
  | Submission.submitQuery => "/"
  | Submission.submitQuestion => "/nn.html"
  | Submission.submitEmail => "/about"
  | Submission.submitAnswer => "/"

/-- Text sent by the `catch` branch of each submission handler. -/
def Submission.failText : Submission → String
  | Submission.submitQuery => "Error submitting query."
  | Submission.submitQuestion => "Error submitting question."
  | Submission.submitEmail => "Error submitting email."
  | Submission.submitAnswer => "Error submitting answer."

/-- Items of the `put` calls in a call log, each with its table, in order. -/
def putCalls : List Call → List (String × JSObj)
  | [] => []
  | Call.put t item :: rest => (t, item) :: putCalls rest
  | _ :: rest => putCalls rest

/-- Messages of the `publish` calls in a call log, in order. -/
def publishCalls : List Call → List String
  | [] => []
  | Call.publish m :: rest => m :: publishCalls rest
  | _ :: rest => publishCalls rest

/-! ## Sample data -/

/-- A deployment with the four tables keyed as the handlers expect, one question
already stored, and no backend call made yet. -/
def sampleWorld : World where
  keyAttr := fun t =>
    if t = "Questions" then "questionid"
    else if t = "Answers" then "answerid"
    else if t = "Queries" then "queryid"
    else if t = "Emails" then "emailid"
    else ""
  items := fun t =>
    if t = "Questions" then
      [[("questionid", JSValue.str "id-1"), ("question", JSValue.str "why?")]]
    else []
  calls := []

/-- A request during which every backend call succeeds. -/
def allSucceed : Outcomes where
  uuid := "id-2"
  putError := none
  scanError := none
  publishError := none

/-- A request during which every backend call is rejected. -/
def allFail : Outcomes where
  uuid := "id-2"
  putError := some (JSError.backend "put rejected")
  scanError := some (JSError.backend "scan rejected")
  publishError := some (JSError.backend "publish rejected")

/-- A parsed JSON body `{"question": {"toString": 1}}`. -/
def unprintableQuestion : JSObj :=
  [("question", JSValue.obj [("toString", JSValue.num "1")])]

/-- A parsed JSON body `{"name": {"toString": 1}}`, with `email` and `query` missing. -/
def unprintableName : JSObj :=
  [("name", JSValue.obj [("toString", JSValue.num "1")])]

/-- A parsed JSON body `{"email": {"toString": 1}}`. -/
def unprintableEmail : JSObj :=
  [("email", JSValue.obj [("toString", JSValue.num "1")])]

/-- A parsed JSON body `{"answer": {"toString": 1}}`. -/
def unprintableAnswer : JSObj :=
  [("answer", JSValue.obj [("toString", JSValue.num "1")])]

/-! ## Basic facts about objects -/

theorem objGet_objSet_same (o : JSObj) (k : String) (v : JSValue) :
    objGet (objSet o k v) k = v := by
  induction o with
  | nil => simp [objSet, objGet]
  | cons p rest ih =>
    obtain ⟨k', v'⟩ := p
    by_cases h : k' = k
    · simp [objSet, objGet, h]
    · simp [objSet, objGet, h, ih]

theorem objGet_objSet_other (o : JSObj) (k k' : String) (v : JSValue) (h : k' ≠ k) :
    objGet (objSet o k v) k' = objGet o k' := by
  induction o with
  | nil => simp [objSet, objGet, Ne.symm h]
  | cons p rest ih =>
    obtain ⟨k0, v0⟩ := p
    by_cases h0 : k0 = k
    · subst h0
      simp [objSet, objGet, Ne.symm h]
    · by_cases h1 : k0 = k'
      · subst h1
        simp [objSet, objGet, h0]
      · simp [objSet, objGet, h0, h1, ih]

theorem mem_objKeys_objSet (o : JSObj) (k k' : String) (v : JSValue) :
    k' ∈ objKeys (objSet o k v) ↔ k' = k ∨ k' ∈ objKeys o := by
  induction o with
  | nil => simp [objSet, objKeys]
  | cons p rest ih =>
    obtain ⟨k0, v0⟩ := p
    by_cases h0 : k0 = k
    · subst h0
      simp [objSet, objKeys]
    · simp only [objKeys] at ih
      simp [objSet, objKeys, h0, ih]
      tauto

theorem objGet_foldl_set (src : JSObj) (ks : List String) (target : JSObj) (k : String) :
    objGet (ks.foldl (fun acc k => objSet acc k (objGet src k)) target) k
      = if k ∈ ks then objGet src k else objGet target k := by
  induction ks generalizing target with
  | nil => simp
  | cons k0 rest ih =>
    simp only [List.foldl_cons, ih, List.mem_cons]
    by_cases hr : k ∈ rest
    · simp [hr]
    · by_cases h0 : k = k0
      · subst h0
        simp [hr, objGet_objSet_same]
      · simp [hr, h0, objGet_objSet_other _ _ _ _ h0]

theorem mem_objKeys_foldl_set (src : JSObj) (ks : List String) (target : JSObj) (k : String) :
    k ∈ objKeys (ks.foldl (fun acc k => objSet acc k (objGet src k)) target)
      ↔ k ∈ ks ∨ k ∈ objKeys target := by
  induction ks generalizing target with
  | nil => simp
  | cons k0 rest ih =>
    simp only [List.foldl_cons, ih, List.mem_cons, mem_objKeys_objSet]
    tauto

/-! ## The shape of a submission -/

theorem insert_put_fails (w : World) (o : Outcomes) (t pk : String) (data : JSObj)
    (e : JSError) (h : o.putError = some e) :
    insertIntoDynamoDB w o t pk data
      = (Except.error e, w.logged (Call.put t (mergedItem pk o.uuid data))) := by
  simp [insertIntoDynamoDB, dynamoPut, h]

theorem insert_put_ok (w : World) (o : Outcomes) (t pk : String) (data : JSObj)
    (h : o.putError = none) :
    insertIntoDynamoDB w o t pk data
      = (Except.ok (), (w.logged (Call.put t (mergedItem pk o.uuid data))).stored t
          (mergedItem pk o.uuid data)) := by
  simp [insertIntoDynamoDB, dynamoPut, h]

theorem publishToSns_eq (w : World) (o : Outcomes) (message : String) :
    publishToSns w o message = (Except.ok (), w.logged (Call.publish message)) := by
  cases h : o.publishError <;> simp [publishToSns, snsPublish, h]

theorem submit_put_fails (s : Submission) (w : World) (o : Outcomes) (body : JSObj)
    (e : JSError) (h : o.putError = some e) :
    submit s w o body
      = (Response.send 500 s.failText,
          w.logged (Call.put s.table (mergedItem s.primaryKey o.uuid (s.record body)))) := by
  cases s <;>
    simp [submit, submitQuery, submitQuestion, submitEmail, submitAnswer,
      insert_put_fails _ _ _ _ _ e h, Submission.failText, Submission.table,
      Submission.primaryKey, Submission.record]

theorem submit_message_fails (s : Submission) (w : World) (o : Outcomes) (body : JSObj)
    (e : JSError) (h : o.putError = none) (hm : s.message body = Except.error e) :
    submit s w o body
      = (Response.send 500 s.failText,
          (w.logged (Call.put s.table (mergedItem s.primaryKey o.uuid (s.record body)))).stored
            s.table (mergedItem s.primaryKey o.uuid (s.record body))) := by
  cases s <;> simp only [Submission.message] at hm <;>
    simp [submit, submitQuery, submitQuestion, submitEmail, submitAnswer,
      insert_put_ok _ _ _ _ _ h, hm, Submission.failText, Submission.table,
      Submission.primaryKey, Submission.record]

theorem submit_ok (s : Submission) (w : World) (o : Outcomes) (body : JSObj)
    (msg : String) (h : o.putError = none) (hm : s.message body = Except.ok msg) :
    submit s w o body
      = (Response.redirect 302 s.target,
          ((w.logged (Call.put s.table (mergedItem s.primaryKey o.uuid (s.record body)))).stored
            s.table (mergedItem s.primaryKey o.uuid (s.record body))).logged
              (Call.publish msg)) := by
  cases s <;> simp only [Submission.message] at hm <;>
    simp [submit, submitQuery, submitQuestion, submitEmail, submitAnswer,
      insert_put_ok _ _ _ _ _ h, hm, publishToSns_eq, Submission.target, Submission.table,
      Submission.primaryKey, Submission.record]

@[simp] theorem logged_calls (w : World) (c : Call) : (w.logged c).calls = w.calls ++ [c] := rfl

@[simp] theorem logged_items (w : World) (c : Call) : (w.logged c).items = w.items := rfl

@[simp] theorem logged_keyAttr (w : World) (c : Call) : (w.logged c).keyAttr = w.keyAttr := rfl

@[simp] theorem stored_calls (w : World) (t : String) (item : JSObj) :
    (w.stored t item).calls = w.calls := rfl

@[simp] theorem stored_keyAttr (w : World) (t : String) (item : JSObj) :
    (w.stored t item).keyAttr = w.keyAttr := rfl

theorem stored_items_same (w : World) (t : String) (item : JSObj) :
    (w.stored t item).items t = storeItem (w.keyAttr t) (w.items t) item := by
  simp [World.stored]

theorem stored_items_other (w : World) (t t' : String) (item : JSObj) (h : t' ≠ t) :
    (w.stored t item).items t' = w.items t' := by
  simp [World.stored, h]

theorem putCalls_append (xs ys : List Call) : putCalls (xs ++ ys) = putCalls xs ++ putCalls ys := by
  induction xs with
  | nil => rfl
  | cons c rest ih => cases c <;> simp [putCalls, ih]

theorem publishCalls_append (xs ys : List Call) :
    publishCalls (xs ++ ys) = publishCalls xs ++ publishCalls ys := by
  induction xs with
  | nil => rfl
  | cons c rest ih => cases c <;> simp [publishCalls, ih]

/-! ## Write failures (C2) -/

/-- C2: on each of the four submission routes and for every request body, when
the storage put is rejected with `e`, `insertIntoDynamoDB` rethrows `e` and the
handler answers status 500 with the text of its `catch` branch; the response is
not a redirect. -/
theorem put_failure_answers_500 (s : Submission) (w : World) (o : Outcomes) (body : JSObj)
    (e : JSError) (hput : o.putError = some e) :
    (insertIntoDynamoDB w o s.table s.primaryKey (s.record body)).1 = Except.error e ∧
    (submit s w o body).1 = Response.send 500 s.failText ∧
    (∃ text, (submit s w o body).1 = Response.send 500 text) ∧
    ∀ st loc, (submit s w o body).1 ≠ Response.redirect st loc := by
  refine ⟨?_, ?_, ?_, ?_⟩
  · rw [insert_put_fails _ _ _ _ _ e hput]
  · rw [submit_put_fails s w o body e hput]
  · exact ⟨s.failText, by rw [submit_put_fails s w o body e hput]⟩
  · intro st loc
    rw [submit_put_fails s w o body e hput]
    simp

theorem put_failure_answers_500_witness :
    allFail.putError = some (JSError.backend "put rejected") ∧
    (submit Submission.submitQuestion sampleWorld allFail [("question", JSValue.str "how?")]).1
      = Response.send 500 "Error submitting question." :=
  ⟨rfl, (put_failure_answers_500 Submission.submitQuestion sampleWorld allFail
    [("question", JSValue.str "how?")] (JSError.backend "put rejected") rfl).2.1⟩

/-! ## Read failures (C3) -/

/-- C3: when the storage scan is rejected, `GET /questions` and `GET /answers`
answer status 200 with the empty JSON array; for every scan outcome `fetchQuestions`
and `fetchAnswers` return normally and the response is a status-200 JSON array,
so the handler's 500 branch is never taken. -/
theorem scan_failure_answers_empty_array (w : World) (o : Outcomes) (e : JSError)
    (hscan : o.scanError = some e) :
    (getQuestions w o).1 = Response.json 200 [] ∧
    (getAnswers w o).1 = Response.json 200 [] ∧
    (∀ o2 : Outcomes, ∃ items, (fetchQuestions w o2).1 = Except.ok items ∧
      (getQuestions w o2).1 = Response.json 200 items) ∧
    (∀ o2 : Outcomes, ∃ items, (fetchAnswers w o2).1 = Except.ok items ∧
      (getAnswers w o2).1 = Response.json 200 items) := by
  refine ⟨?_, ?_, ?_, ?_⟩
  · simp [getQuestions, fetchQuestions, dynamoScan, hscan]
  · simp [getAnswers, fetchAnswers, dynamoScan, hscan]
  · intro o2
    cases h : o2.scanError <;> simp [getQuestions, fetchQuestions, dynamoScan, h]
  · intro o2
    cases h : o2.scanError <;> simp [getAnswers, fetchAnswers, dynamoScan, h]

theorem scan_failure_answers_empty_array_witness :
    allFail.scanError = some (JSError.backend "scan rejected") ∧
    (getQuestions sampleWorld allFail).1 = Response.json 200 [] :=
  ⟨rfl, (scan_failure_answers_empty_array sampleWorld allFail
    (JSError.backend "scan rejected") rfl).1⟩

/-! ## Notification failures (C4) -/

/-- C4: on each submission route, for every request body and every storage
outcome, the response does not depend on the outcome of the notification
publish; `publishToSns` returns normally whatever the publish does. -/
theorem publish_outcome_does_not_change_response (s : Submission) (w : World) (o : Outcomes)
    (body : JSObj) (p1 p2 : Option JSError) :
    (submit s w { o with publishError := p1 } body).1
      = (submit s w { o with publishError := p2 } body).1 ∧
    ∀ (w2 : World) (o2 : Outcomes) (message : String),
      (publishToSns w2 o2 message).1 = Except.ok () := by
  constructor
  · cases hp : o.putError with
    | some e =>
      rw [submit_put_fails s w _ body e rfl, submit_put_fails s w _ body e rfl]
    | none =>
      cases hm : s.message body with
      | error e =>
        rw [submit_message_fails s w _ body e rfl hm, submit_message_fails s w _ body e rfl hm]
      | ok msg =>
        rw [submit_ok s w _ body msg rfl hm, submit_ok s w _ body msg rfl hm]
  · intro w2 o2 message
    rw [publishToSns_eq]

/-! ## The item a submission puts (C10) -/

theorem mergedItem_record (s : Submission) (uuid : String) (body : JSObj) :
    mergedItem s.primaryKey uuid (s.record body)
      = (s.primaryKey, JSValue.str uuid) :: s.record body := by
  cases s <;>
    simp [mergedItem, objSpread, objSet, objGet, objKeys, Submission.primaryKey,
      Submission.record]

theorem submit_putCalls (s : Submission) (w : World) (o : Outcomes) (body : JSObj) :
    putCalls (submit s w o body).2.calls
      = putCalls w.calls ++ [(s.table, (s.primaryKey, JSValue.str o.uuid) :: s.record body)] := by
  rw [← mergedItem_record]
  cases hp : o.putError with
  | some e =>
    rw [submit_put_fails s w o body e hp]
    simp [putCalls_append, putCalls]
  | none =>
    cases hm : s.message body with
    | error e =>
      rw [submit_message_fails s w o body e hp hm]
      simp [putCalls_append, putCalls]
    | ok msg =>
      rw [submit_ok s w o body msg hp hm]
      simp [putCalls_append, putCalls]

/-- C10: for every request body, whatever other fields it carries, the only
item a submission handler puts is, in its own table, the object with exactly the
fields of its entity kind: the primary-key field holding the generated
identifier, and each entity field holding the body's value of that name
(`undefined` when the body has none). -/
theorem put_item_has_exactly_entity_fields (w : World) (o : Outcomes) (body : JSObj) :
    putCalls (submitQuestion w o body).2.calls
      = putCalls w.calls ++
          [("Questions",
            [("questionid", JSValue.str o.uuid), ("question", objGet body "question")])] ∧
    putCalls (submitAnswer w o body).2.calls
      = putCalls w.calls ++
          [("Answers", [("answerid", JSValue.str o.uuid), ("answer", objGet body "answer")])] ∧
    putCalls (submitQuery w o body).2.calls
      = putCalls w.calls ++
          [("Queries",
            [("queryid", JSValue.str o.uuid), ("name", objGet body "name"),
              ("email", objGet body "email"), ("query", objGet body "query")])] ∧
    putCalls (submitEmail w o body).2.calls
      = putCalls w.calls ++
          [("Emails", [("emailid", JSValue.str o.uuid), ("email", objGet body "email")])] :=
  ⟨submit_putCalls Submission.submitQuestion w o body,
    submit_putCalls Submission.submitAnswer w o body,
    submit_putCalls Submission.submitQuery w o body,
    submit_putCalls Submission.submitEmail w o body⟩

/-! ## What `insertIntoDynamoDB` puts (C5) -/

theorem insert_putCalls (w : World) (o : Outcomes) (t pk : String) (data : JSObj) :
    putCalls (insertIntoDynamoDB w o t pk data).2.calls
      = putCalls w.calls ++ [(t, mergedItem pk o.uuid data)] := by
  cases hp : o.putError with
  | some e =>
    rw [insert_put_fails w o t pk data e hp]
    simp [putCalls_append, putCalls]
  | none =>
    rw [insert_put_ok w o t pk data hp]
    simp [putCalls_append, putCalls]

theorem mem_storeItem_self (key : String) (stored : List JSObj) (item : JSObj) :
    item ∈ storeItem key stored item := by
  simp [storeItem]

/-- C5, as the code has it: for every table name, primary-key name, record and
generated identifier, the one item `insertIntoDynamoDB` puts, into that table, is
the object `{ [primaryKey]: id, ...record }`; its fields are the primary-key
name and the record's fields, every field of the record has the record's value,
and the primary-key name maps to the generated identifier when the record has
no field of that name. -/
theorem insert_puts_merged_record (w : World) (o : Outcomes) (t pk : String) (data : JSObj) :
    putCalls (insertIntoDynamoDB w o t pk data).2.calls
      = putCalls w.calls ++ [(t, mergedItem pk o.uuid data)] ∧
    (o.putError = none → mergedItem pk o.uuid data ∈ (insertIntoDynamoDB w o t pk data).2.items t) ∧
    (∀ k, k ∈ objKeys (mergedItem pk o.uuid data) ↔ k = pk ∨ k ∈ objKeys data) ∧
    (∀ k ∈ objKeys data, objGet (mergedItem pk o.uuid data) k = objGet data k) ∧
    (pk ∉ objKeys data → objGet (mergedItem pk o.uuid data) pk = JSValue.str o.uuid) := by
  refine ⟨insert_putCalls w o t pk data, ?_, ?_, ?_, ?_⟩
  · intro hp
    rw [insert_put_ok w o t pk data hp, stored_items_same]
    exact mem_storeItem_self _ _ _
  · intro k
    unfold mergedItem objSpread
    rw [mem_objKeys_foldl_set, mem_objKeys_objSet]
    simp [objKeys]
    tauto
  · intro k hk
    unfold mergedItem objSpread
    rw [objGet_foldl_set, if_pos hk]
  · intro hpk
    unfold mergedItem objSpread
    rw [objGet_foldl_set, if_neg hpk, objGet_objSet_same]

theorem insert_puts_merged_record_witness :
    "questionid" ∉ objKeys [("question", JSValue.str "how?")] ∧
    objGet (mergedItem "questionid" allSucceed.uuid [("question", JSValue.str "how?")])
      "questionid" = JSValue.str allSucceed.uuid :=
  ⟨by simp [objKeys],
    (insert_puts_merged_record sampleWorld allSucceed "Questions" "questionid"
      [("question", JSValue.str "how?")]).2.2.2.2 (by simp [objKeys])⟩

/-- C5 as stated fails: for the record `{ questionid: "chosen" }` the item put is
`{ questionid: "chosen" }` itself, whose `questionid` is the record's value and
not the generated identifier. -/
theorem insert_key_taken_from_record :
    putCalls (insertIntoDynamoDB sampleWorld allSucceed "Questions" "questionid"
        [("questionid", JSValue.str "chosen")]).2.calls
      = [("Questions", [("questionid", JSValue.str "chosen")])] ∧
    objGet [("questionid", JSValue.str "chosen")] "questionid"
      ≠ JSValue.str allSucceed.uuid := by
  constructor
  · rfl
  · simp [objGet, allSucceed]

/-! ## Submission followed by a read (C1) -/

theorem sameKey_str (v : JSValue) (u : String) :
    sameKey v (JSValue.str u) = true ↔ v = JSValue.str u := by
  cases v <;> simp [sameKey]

theorem storeItem_fresh (key : String) (stored : List JSObj) (item : JSObj) (u : String)
    (hitem : objGet item key = JSValue.str u)
    (hfresh : ∀ old ∈ stored, objGet old key ≠ JSValue.str u) :
    storeItem key stored item = stored ++ [item] := by
  unfold storeItem
  congr 1
  rw [List.filter_eq_self]
  intro old hold
  have hne := hfresh old hold
  rw [hitem]
  cases hs : sameKey (objGet old key) (JSValue.str u) with
  | false => rfl
  | true => exact absurd ((sameKey_str _ _).1 hs) hne

theorem submit_items_put_ok (s : Submission) (w : World) (o : Outcomes) (body : JSObj)
    (hp : o.putError = none) :
    (submit s w o body).2.items
      = (w.stored s.table ((s.primaryKey, JSValue.str o.uuid) :: s.record body)).items := by
  rw [← mergedItem_record]
  cases hm : s.message body with
  | error e =>
    rw [submit_message_fails s w o body e hp hm]
    rfl
  | ok msg =>
    rw [submit_ok s w o body msg hp hm]
    rfl

theorem submit_items_put_fails (s : Submission) (w : World) (o : Outcomes) (body : JSObj)
    (e : JSError) (hp : o.putError = some e) :
    (submit s w o body).2.items = w.items := by
  rw [submit_put_fails s w o body e hp]
  rfl

theorem getQuestions_scan_ok (w : World) (o : Outcomes) (h : o.scanError = none) :
    getQuestions w o = (Response.json 200 (w.items "Questions"), w.logged (Call.scan "Questions")) := by
  simp [getQuestions, fetchQuestions, dynamoScan, h]

theorem getAnswers_scan_ok (w : World) (o : Outcomes) (h : o.scanError = none) :
    getAnswers w o = (Response.json 200 (w.items "Answers"), w.logged (Call.scan "Answers")) := by
  simp [getAnswers, fetchAnswers, dynamoScan, h]

theorem listed_after_submit (s : Submission) (w : World) (o : Outcomes) (body : JSObj)
    (hp : o.putError = none)
    (hfresh : ∀ old ∈ w.items s.table, objGet old s.primaryKey ≠ JSValue.str o.uuid) :
    ∃ r ∈ (submit s w o body).2.items s.table,
      r = (s.primaryKey, JSValue.str o.uuid) :: s.record body ∧
      ∀ r2 ∈ (submit s w o body).2.items s.table,
        objGet r2 s.primaryKey = JSValue.str o.uuid → r2 = r := by
  rw [submit_items_put_ok s w o body hp, stored_items_same]
  refine ⟨_, mem_storeItem_self _ _ _, rfl, ?_⟩
  intro r2 hr2 hid
  simp only [storeItem, List.mem_append, List.mem_filter, List.mem_singleton] at hr2
  rcases hr2 with ⟨hold, -⟩ | heq
  · exact absurd hid (hfresh r2 hold)
  · exact heq

/-- C1: with each table modelled as the items put into it, for every request
body, when the put of `POST /submitQuestion` succeeds with a generated identifier
that no stored question has as its `questionid`, a following `GET /questions`
whose scan succeeds answers status 200 with a JSON array containing a record
whose `question` is the body's `question` value and whose `questionid` is that
identifier, and no other record of the array has that `questionid`.  The same
holds for `POST /submitAnswer` and `GET /answers` with `answer` and `answerid`. -/
theorem submitted_value_is_listed (w : World) (o o2 : Outcomes) (body : JSObj)
    (hput : o.putError = none) (hscan : o2.scanError = none) :
    ((∀ old ∈ w.items "Questions", objGet old "questionid" ≠ JSValue.str o.uuid) →
      ∃ items, (getQuestions (submitQuestion w o body).2 o2).1 = Response.json 200 items ∧
        ∃ r ∈ items, objGet r "question" = objGet body "question" ∧
          objGet r "questionid" = JSValue.str o.uuid ∧
          ∀ r2 ∈ items, objGet r2 "questionid" = JSValue.str o.uuid → r2 = r) ∧
    ((∀ old ∈ w.items "Answers", objGet old "answerid" ≠ JSValue.str o.uuid) →
      ∃ items, (getAnswers (submitAnswer w o body).2 o2).1 = Response.json 200 items ∧
        ∃ r ∈ items, objGet r "answer" = objGet body "answer" ∧
          objGet r "answerid" = JSValue.str o.uuid ∧
          ∀ r2 ∈ items, objGet r2 "answerid" = JSValue.str o.uuid → r2 = r) := by
  constructor
  · intro hfreshQ
    obtain ⟨r, hr, hr_eq, huniq⟩ :=
      listed_after_submit Submission.submitQuestion w o body hput hfreshQ
    refine ⟨_, by rw [getQuestions_scan_ok _ _ hscan]; rfl, r, hr, ?_, ?_, huniq⟩
    · rw [hr_eq]
      simp [objGet, Submission.primaryKey, Submission.record]
    · rw [hr_eq]
      simp [objGet, Submission.primaryKey]
  · intro hfreshA
    obtain ⟨r, hr, hr_eq, huniq⟩ :=
      listed_after_submit Submission.submitAnswer w o body hput hfreshA
    refine ⟨_, by rw [getAnswers_scan_ok _ _ hscan]; rfl, r, hr, ?_, ?_, huniq⟩
    · rw [hr_eq]
      simp [objGet, Submission.primaryKey, Submission.record]
    · rw [hr_eq]
      simp [objGet, Submission.primaryKey]

theorem submitted_value_is_listed_witness :
    allSucceed.putError = none ∧ allSucceed.scanError = none ∧
    (∀ old ∈ sampleWorld.items "Questions",
      objGet old "questionid" ≠ JSValue.str allSucceed.uuid) ∧
    ∃ items,
      (getQuestions (submitQuestion sampleWorld allSucceed [("question", JSValue.str "how?")]).2
        allSucceed).1 = Response.json 200 items ∧
      ∃ r ∈ items, objGet r "question" = objGet [("question", JSValue.str "how?")] "question" ∧
        objGet r "questionid" = JSValue.str allSucceed.uuid ∧
        ∀ r2 ∈ items, objGet r2 "questionid" = JSValue.str allSucceed.uuid → r2 = r :=
  ⟨rfl, rfl, by simp [sampleWorld, allSucceed, objGet],
    (submitted_value_is_listed sampleWorld allSucceed allSucceed
      [("question", JSValue.str "how?")] rfl rfl).1
      (by simp [sampleWorld, allSucceed, objGet])⟩

/-! ## Frame: what a request changes in the tables -/

theorem serve_items_not_post (r : Route) (w : World) (o : Outcomes) (body : JSObj)
    (h : ∀ s, r ≠ Route.post s) : (serve r w o body).2.items = w.items := by
  cases r with
  | getQuestions =>
    cases hs : o.scanError <;> simp [serve, getQuestions, fetchQuestions, dynamoScan, hs]
  | getAnswers =>
    cases hs : o.scanError <;> simp [serve, getAnswers, fetchAnswers, dynamoScan, hs]
  | post s => exact absurd rfl (h s)
  | page p => rfl

theorem submit_items_fresh (s : Submission) (w : World) (o : Outcomes) (body : JSObj)
    (hp : o.putError = none) (hkey : w.keyAttr s.table = s.primaryKey)
    (hfresh : ∀ old ∈ w.items s.table, objGet old s.primaryKey ≠ JSValue.str o.uuid) :
    (submit s w o body).2.items s.table
        = w.items s.table ++ [(s.primaryKey, JSValue.str o.uuid) :: s.record body] ∧
    ∀ t, t ≠ s.table → (submit s w o body).2.items t = w.items t := by
  rw [submit_items_put_ok s w o body hp]
  constructor
  · rw [stored_items_same, hkey]
    exact storeItem_fresh _ _ _ o.uuid (by simp [objGet]) hfresh
  · intro t ht
    exact stored_items_other _ _ _ _ ht

/-- Frame by storage outcome: when the target table is keyed by the handler's
primary-key name and no record stored in it has the generated identifier as
its key, every route leaves every stored record of every table in place; a
submission whose put succeeds appends exactly one record, the put item, to its
own table and leaves every other table as it was; a submission whose put
fails, and every GET route, leaves every table as it was.  Whether the
response then reports success is a separate matter: a put that succeeded can
still be answered with status 500. -/
theorem stored_records_are_kept (r : Route) (w : World) (o : Outcomes) (body : JSObj)
    (hkey : ∀ s, r = Route.post s → w.keyAttr s.table = s.primaryKey)
    (hfresh : ∀ s, r = Route.post s →
      ∀ old ∈ w.items s.table, objGet old s.primaryKey ≠ JSValue.str o.uuid) :
    (∀ t old, old ∈ w.items t → old ∈ (serve r w o body).2.items t) ∧
    (∀ s, r = Route.post s → o.putError = none →
      (serve r w o body).2.items s.table
          = w.items s.table ++ [(s.primaryKey, JSValue.str o.uuid) :: s.record body] ∧
      ∀ t, t ≠ s.table → (serve r w o body).2.items t = w.items t) ∧
    (∀ s e, r = Route.post s → o.putError = some e → (serve r w o body).2.items = w.items) ∧
    ((∀ s, r ≠ Route.post s) → (serve r w o body).2.items = w.items) := by
  have hpost : ∀ s, r = Route.post s → o.putError = none →
      (serve r w o body).2.items s.table
          = w.items s.table ++ [(s.primaryKey, JSValue.str o.uuid) :: s.record body] ∧
      ∀ t, t ≠ s.table → (serve r w o body).2.items t = w.items t := by
    intro s hr hp
    subst hr
    exact submit_items_fresh s w o body hp (hkey s rfl) (hfresh s rfl)
  have hfail : ∀ s e, r = Route.post s → o.putError = some e →
      (serve r w o body).2.items = w.items := by
    intro s e hr hp
    subst hr
    exact submit_items_put_fails s w o body e hp
  refine ⟨?_, hpost, hfail, serve_items_not_post r w o body⟩
  intro t old hold
  by_cases hr : ∃ s, r = Route.post s
  · obtain ⟨s, hs⟩ := hr
    cases hp : o.putError with
    | some e => rw [hfail s e hs hp]; exact hold
    | none =>
      by_cases ht : t = s.table
      · subst ht
        rw [(hpost s hs hp).1]
        exact List.mem_append_left _ hold
      · rw [(hpost s hs hp).2 t ht]
        exact hold
  · rw [serve_items_not_post r w o body (fun s hs => hr ⟨s, hs⟩)]
    exact hold

theorem stored_records_are_kept_witness :
    (∀ s, Route.post Submission.submitQuestion = Route.post s →
      sampleWorld.keyAttr s.table = s.primaryKey) ∧
    (∀ s, Route.post Submission.submitQuestion = Route.post s →
      ∀ old ∈ sampleWorld.items s.table, objGet old s.primaryKey ≠ JSValue.str allSucceed.uuid) ∧
    (serve (Route.post Submission.submitQuestion) sampleWorld allSucceed
        [("question", JSValue.str "how?")]).2.items "Questions"
      = [[("questionid", JSValue.str "id-1"), ("question", JSValue.str "why?")],
          [("questionid", JSValue.str "id-2"), ("question", JSValue.str "how?")]] :=
  ⟨by intro s hs; cases hs; rfl,
    by intro s hs; cases hs; simp [sampleWorld, allSucceed, objGet, Submission.table,
      Submission.primaryKey],
    ((stored_records_are_kept (Route.post Submission.submitQuestion) sampleWorld allSucceed
      [("question", JSValue.str "how?")]
      (by intro s hs; cases hs; rfl)
      (by intro s hs; cases hs; simp [sampleWorld, allSucceed, objGet, Submission.table,
        Submission.primaryKey])).2.1 Submission.submitQuestion rfl rfl).1⟩

/-! ## A notification message that cannot be built (C6, C7, C9) -/

/-- C7 at a failing input: `POST /submitQuestion` with the JSON body
`{"question": {"toString": 1}}` and a put that succeeds stores the record and
then answers status 500, not the redirect to `/nn.html`. -/
theorem submitQuestion_stored_but_500 :
    allSucceed.putError = none ∧
    (submitQuestion sampleWorld allSucceed unprintableQuestion).1
      = Response.send 500 "Error submitting question." ∧
    (submitQuestion sampleWorld allSucceed unprintableQuestion).2.items "Questions"
      = [[("questionid", JSValue.str "id-1"), ("question", JSValue.str "why?")],
          [("questionid", JSValue.str "id-2"),
            ("question", JSValue.obj [("toString", JSValue.num "1")])]] := by
  refine ⟨rfl, rfl, rfl⟩

/-- C6 at a failing input: `POST /submitQuery` with the JSON body
`{"name": {"toString": 1}}`, in which `email` and `query` are missing, and a put
that succeeds: the item is put with `email` and `query` undefined, and the
response is status 500, not the redirect to `/`. -/
theorem submitQuery_missing_fields_500 :
    allSucceed.putError = none ∧
    objGet unprintableName "email" = JSValue.undefined ∧
    objGet unprintableName "query" = JSValue.undefined ∧
    putCalls (submitQuery sampleWorld allSucceed unprintableName).2.calls
      = [("Queries",
          [("queryid", JSValue.str "id-2"),
            ("name", JSValue.obj [("toString", JSValue.num "1")]),
            ("email", JSValue.undefined), ("query", JSValue.undefined)])] ∧
    (submitQuery sampleWorld allSucceed unprintableName).1
      = Response.send 500 "Error submitting query." := by
  refine ⟨rfl, rfl, rfl, rfl, rfl⟩

/-- C9 at a failing input: `POST /submitEmail` with the JSON body
`{"email": {"toString": 1}}` and a put that succeeds makes one backend call, the
put; no publish follows it. -/
theorem submitEmail_put_without_publish :
    allSucceed.putError = none ∧
    putCalls (submitEmail sampleWorld allSucceed unprintableEmail).2.calls
      = [("Emails",
          [("emailid", JSValue.str "id-2"),
            ("email", JSValue.obj [("toString", JSValue.num "1")])])] ∧
    publishCalls (submitEmail sampleWorld allSucceed unprintableEmail).2.calls = [] ∧
    (submitEmail sampleWorld allSucceed unprintableEmail).2.calls.length = 1 := by
  refine ⟨rfl, rfl, rfl, rfl⟩

/-! ## What holds on every submission -/

/-- Backend calls of one submission: one put; one publish after it exactly when
the put succeeded and the notification message could be built. -/
theorem submit_call_sequence (s : Submission) (w : World) (o : Outcomes) (body : JSObj) :
    (∀ e, o.putError = some e →
      (submit s w o body).2.calls
        = w.calls ++ [Call.put s.table ((s.primaryKey, JSValue.str o.uuid) :: s.record body)]) ∧
    (∀ e, o.putError = none → s.message body = Except.error e →
      (submit s w o body).2.calls
        = w.calls ++ [Call.put s.table ((s.primaryKey, JSValue.str o.uuid) :: s.record body)]) ∧
    (∀ msg, o.putError = none → s.message body = Except.ok msg →
      (submit s w o body).2.calls
        = w.calls ++ [Call.put s.table ((s.primaryKey, JSValue.str o.uuid) :: s.record body),
            Call.publish msg]) := by
  rw [← mergedItem_record]
  refine ⟨?_, ?_, ?_⟩
  · intro e hp
    rw [submit_put_fails s w o body e hp]
    rfl
  · intro e hp hm
    rw [submit_message_fails s w o body e hp hm]
    rfl
  · intro msg hp hm
    rw [submit_ok s w o body msg hp hm]
    simp

/-- Response of one submission: the redirect when the put succeeded and the
notification message could be built, status 500 otherwise. -/
theorem submit_response (s : Submission) (w : World) (o : Outcomes) (body : JSObj) :
    (submit s w o body).1
      = match o.putError, s.message body with
        | none, Except.ok _ => Response.redirect 302 s.target
        | _, _ => Response.send 500 s.failText := by
  cases hp : o.putError with
  | some e => rw [submit_put_fails s w o body e hp]
  | none =>
    cases hm : s.message body with
    | error e => rw [submit_message_fails s w o body e hp hm]
    | ok msg => rw [submit_ok s w o body msg hp hm]

/-- A missing field converts to the text `undefined`, so on the three one-field
routes a body without the field is answered by the redirect when the put succeeds. -/
theorem one_field_missing_redirects (w : World) (o : Outcomes) (body : JSObj)
    (hp : o.putError = none) :
    (objGet body "question" = JSValue.undefined →
      (submitQuestion w o body).1 = Response.redirect 302 "/nn.html") ∧
    (objGet body "email" = JSValue.undefined →
      (submitEmail w o body).1 = Response.redirect 302 "/about") ∧
    (objGet body "answer" = JSValue.undefined →
      (submitAnswer w o body).1 = Response.redirect 302 "/") := by
  refine ⟨?_, ?_, ?_⟩
  · intro h
    rw [show submitQuestion w o body = submit Submission.submitQuestion w o body from rfl,
      submit_response]
    simp [hp, Submission.message, prefixedMessage, h, jsToString, Submission.target]
  · intro h
    rw [show submitEmail w o body = submit Submission.submitEmail w o body from rfl,
      submit_response]
    simp [hp, Submission.message, prefixedMessage, h, jsToString, Submission.target]
  · intro h
    rw [show submitAnswer w o body = submit Submission.submitAnswer w o body from rfl,
      submit_response]
    simp [hp, Submission.message, prefixedMessage, h, jsToString, Submission.target]

/-! ## A submission answered as failed that changed a table (C8) -/

/-- C8 at a failing input: `POST /submitAnswer` with the JSON body
`{"answer": {"toString": 1}}`, a put that succeeds, the Answers table keyed by
`answerid` and holding no record with the generated identifier: the response
is status 500 `Error submitting answer.`, so the submission is answered as
failed, yet the Answers table has gained a record. -/
theorem answered_500_yet_table_grew :
    allSucceed.putError = none ∧
    sampleWorld.keyAttr "Answers" = "answerid" ∧
    (∀ old ∈ sampleWorld.items "Answers", objGet old "answerid" ≠ JSValue.str allSucceed.uuid) ∧
    (serve (Route.post Submission.submitAnswer) sampleWorld allSucceed unprintableAnswer).1
      = Response.send 500 "Error submitting answer." ∧
    sampleWorld.items "Answers" = [] ∧
    (serve (Route.post Submission.submitAnswer) sampleWorld allSucceed unprintableAnswer).2.items
        "Answers"
      = [[("answerid", JSValue.str "id-2"),
          ("answer", JSValue.obj [("toString", JSValue.num "1")])]] := by
  refine ⟨rfl, rfl, ?_, rfl, rfl, rfl⟩
  simp [sampleWorld]

end App
